import Mathlib

/-!
Shallow embedding of `src/B2BHolidays_Assignment_Manisha_Chollangi.py`,
an XML-to-JSON request transformer, together with proofs about its
validation, defaulting and pricing behaviour.
-/

deriving instance DecidableEq for Except

namespace B2B

/-- An XML element as exposed by `xml.etree.ElementTree`: a tag, an
attribute dictionary, optional text content, and a list of child
elements (document order). -/
inductive Xml where
  | elem (tag : String) (attrs : List (String × String))
         (text : Option String) (children : List Xml)

def Xml.tag : Xml → String
  | .elem t _ _ _ => t

def Xml.attrs : Xml → List (String × String)
  | .elem _ a _ _ => a

def Xml.text : Xml → Option String
  | .elem _ _ tx _ => tx

def Xml.children : Xml → List Xml
  | .elem _ _ _ cs => cs

mutual

/-- All proper descendants of an element, in document order. -/
def Xml.descendants : Xml → List Xml
  | .elem _ _ _ cs => Xml.descendantsList cs

def Xml.descendantsList : List Xml → List Xml
  | [] => []
  | c :: cs => c :: Xml.descendants c ++ Xml.descendantsList cs

end

/-- Elements reached from `e` by following a relative child path
`t1/t2/.../tk` (ElementTree path steps after the leading step). -/
def Xml.selectPath : List String → Xml → List Xml
  | [], e => [e]
  | t :: rest, e =>
      (e.children.filter (fun c => c.tag = t)).flatMap (Xml.selectPath rest)

/-- All matches of an ElementTree pattern of the form `.//t1/t2/.../tk`:
the first step matches at any depth below the root, the remaining steps
are child steps. -/
def Xml.findall (root : Xml) : List String → List Xml
  | [] => []
  | t :: rest =>
      root.descendants.flatMap
        (fun d => if d.tag = t then Xml.selectPath rest d else [])

/-- Model of `Element.find(".//path")`: first match in document order, if any. -/
def Xml.findElem (root : Xml) (path : List String) : Option Xml :=
  (root.findall path).head?

/-- Model of `Element.findtext(".//path")` with no default: `None` when no element
matches; the element's text, with `None` text read as `""`, otherwise. -/
def Xml.findtextOpt (root : Xml) (path : List String) : Option String :=
  (root.findElem path).map (fun e => e.text.getD "")

/-- Model of `Element.findtext(".//path", default)`: the matched element's text
(`""` when the element has no text), or `default` when no element
matches. -/
def Xml.findtextD (root : Xml) (path : List String) (default : String) : String :=
  (root.findtextOpt path).getD default

/-- Model of `key in element.attrib` for an ElementTree element. -/
def Xml.hasAttr (e : Xml) (k : String) : Bool :=
  e.attrs.any (fun p => p.1 = k)

/-! ### Constants of the script -/

def VALID_LANGUAGES : List String := ["en", "fr", "de", "es"]

def DEFAULT_LANGUAGE : String := "en"

def DEFAULT_OPTIONS_QUOTA : Nat := 20

def MAX_OPTIONS_QUOTA : Nat := 50

def VALID_CURRENCIES : List String := ["EUR", "USD", "GBP"]

def DEFAULT_CURRENCY : String := "EUR"

def VALID_NATIONALITIES : List String := ["US", "GB", "CA"]

def DEFAULT_NATIONALITY : String := "US"

def VALID_MARKETS : List String := ["US", "GB", "CA", "ES"]

def DEFAULT_MARKET : String := "ES"

/-- The markup percentage constant, 3.2 percent. -/
def MARKUP_PERCENTAGE : ℚ := 32 / 10

/-- The fixed exchange-rate table: EUR to 1.0, USD to 1.1, GBP to 0.9. -/
def EXCHANGE_RATES : List (String × ℚ) :=
  [("EUR", 1), ("USD", 11 / 10), ("GBP", 9 / 10)]

/-- Python `dict.get(key, default)` over an association list. -/
def dictGet (d : List (String × ℚ)) (k : String) (default : ℚ) : ℚ :=
  (d.lookup k).getD default

/-! ### Request extraction (`parse_xml_request`) -/

/-- Start codepoints of the Unicode decimal-digit runs (category Nd): each
run is ten consecutive codepoints with decimal values 0 through 9.  These
are the characters `int()` parses.  Generated from the Unicode character
database of CPython 3.11 (every Nd codepoint verified to lie in an aligned
run of ten with value equal to its offset). -/
def pyDecimalDigitRunStarts : List Nat :=
  [48, 1632, 1776, 1984, 2406, 2534, 2662, 2790, 2918, 3046, 3174, 3302,
   3430, 3558, 3664, 3792, 3872, 4160, 4240, 6112, 6160, 6470, 6608, 6784,
   6800, 6992, 7088, 7232, 7248, 42528, 43216, 43264, 43472, 43504, 43600,
   44016, 65296, 66720, 68912, 69734, 69872, 69942, 70096, 70384, 70736,
   70864, 71248, 71360, 71472, 71904, 72016, 72784, 73040, 73120, 92768,
   92864, 93008, 120782, 120792, 120802, 120812, 120822, 123200, 123632,
   125264, 130032]

/-- Codepoints on which `str.isdigit()` is true although the character is
not a decimal digit (Unicode property Numeric_Type=Digit: superscripts,
subscripts, circled digits, ...).  `int()` raises `ValueError` on them.
Generated from the Unicode character database of CPython 3.11. -/
def pyDigitNotDecimalCodepoints : List Nat :=
  [178, 179, 185, 4969, 4970, 4971, 4972, 4973, 4974, 4975, 4976, 4977,
   6618, 8304, 8308, 8309, 8310, 8311, 8312, 8313, 8320, 8321, 8322, 8323,
   8324, 8325, 8326, 8327, 8328, 8329, 9312, 9313, 9314, 9315, 9316, 9317,
   9318, 9319, 9320, 9332, 9333, 9334, 9335, 9336, 9337, 9338, 9339, 9340,
   9352, 9353, 9354, 9355, 9356, 9357, 9358, 9359, 9360, 9450, 9461, 9462,
   9463, 9464, 9465, 9466, 9467, 9468, 9469, 9471, 10102, 10103, 10104,
   10105, 10106, 10107, 10108, 10109, 10110, 10112, 10113, 10114, 10115,
   10116, 10117, 10118, 10119, 10120, 10122, 10123, 10124, 10125, 10126,
   10127, 10128, 10129, 10130, 68160, 68161, 68162, 68163, 69216, 69217,
   69218, 69219, 69220, 69221, 69222, 69223, 69224, 69714, 69715, 69716,
   69717, 69718, 69719, 69720, 69721, 69722, 127232, 127233, 127234,
   127235, 127236, 127237, 127238, 127239, 127240, 127241, 127242]

/-- Decimal value of a character under Python `int()`: `some v` exactly
when the character is a Unicode decimal digit (category Nd) of value `v`. -/
def Char.pyDecimalValue (c : Char) : Option Nat :=
  pyDecimalDigitRunStarts.findSome?
    (fun s => if s ≤ c.toNat ∧ c.toNat ≤ s + 9 then some (c.toNat - s) else none)

/-- Per-character test underlying Python `str.isdigit()`: true on decimal
digits and on digit-classified non-decimal characters. -/
def Char.pyIsDigit (c : Char) : Bool :=
  (Char.pyDecimalValue c).isSome || pyDigitNotDecimalCodepoints.contains c.toNat

/-- Python `s and s.isdigit()`: `s` is nonempty and every character is a
digit in the `str.isdigit()` sense. -/
def pyIsDigitStr (s : String) : Bool :=
  !s.data.isEmpty && s.data.all Char.pyIsDigit

/-- Python `int(s)` on a digit-classified string: the base-10 value when
every character is a decimal digit, `none` (a `ValueError`) when some
digit-classified character is not decimal, such as the superscript two. -/
def pyInt? (s : String) : Option Nat :=
  if s.data.all (fun c => (Char.pyDecimalValue c).isSome) then
    some (s.data.foldl (fun n c => 10 * n + (Char.pyDecimalValue c).getD 0) 0)
  else none

/-- Message of the `ValueError` raised by `int(s)` (Python quotes the
offending literal with `repr`; modelled for strings free of quote and
escape characters, which is all this development needs). -/
def intValueErrorMsg (s : String) : String :=
  "invalid literal for int() with base 10: " ++ "'" ++ s ++ "'"

/-- The script's language rule: `findtext` default plus membership check
against `VALID_LANGUAGES`, defaulting to `DEFAULT_LANGUAGE`. -/
def normalize_language (o : Option String) : String :=
  let language := o.getD DEFAULT_LANGUAGE
  if language ∈ VALID_LANGUAGES then language else DEFAULT_LANGUAGE

/-- The script's quota rule (source lines 47-49):
`int(q) if q and q.isdigit() else DEFAULT_OPTIONS_QUOTA`, then
`min(·, MAX_OPTIONS_QUOTA)`.  When the text passes `isdigit()` but some
character is not a decimal digit, `int()` raises `ValueError`, modelled
as `Except.error`; that exception escapes `parse_xml_request` and is
caught at module level like the credentials one. -/
def normalize_options_quota (o : Option String) : Except String Nat :=
  let q : Except String Nat :=
    match o with
    | some s =>
        if pyIsDigitStr s then
          match pyInt? s with
          | some n => .ok n
          | none => .error (intValueErrorMsg s)
        else .ok DEFAULT_OPTIONS_QUOTA
    | none => .ok DEFAULT_OPTIONS_QUOTA
  q.map (fun n => min n MAX_OPTIONS_QUOTA)

/-- The script's currency rule: membership check against
`VALID_CURRENCIES`, defaulting to `DEFAULT_CURRENCY`. -/
def normalize_currency (o : Option String) : String :=
  let currency := o.getD DEFAULT_CURRENCY
  if currency ∈ VALID_CURRENCIES then currency else DEFAULT_CURRENCY

/-- The script's nationality rule: membership check against
`VALID_NATIONALITIES`, defaulting to `DEFAULT_NATIONALITY`. -/
def normalize_nationality (o : Option String) : String :=
  let nationality := o.getD DEFAULT_NATIONALITY
  if nationality ∈ VALID_NATIONALITIES then nationality else DEFAULT_NATIONALITY

/-- The dictionary returned by `parse_xml_request` (fixed key set). -/
structure ParsedData where
  language : String
  options_quota : Nat
  search_type : String
  start_date : Option String
  end_date : Option String
  currency : String
  nationality : String
deriving DecidableEq

/-- The error message of the `ValueError` raised on missing credentials. -/
def missingCredentialsMsg : String :=
  "Missing required parameters: password, username, or CompanyID"

/-- The function `parse_xml_request`, over an already-parsed element tree.
A raised `ValueError` becomes `Except.error`: the quota conversion on
line 48 can raise before the credential check on lines 52-54 does, so it
is sequenced first, as in the source. -/
def parse_xml_request (root : Xml) : Except String ParsedData :=
  let language := normalize_language (root.findtextOpt ["source", "languageCode"])
  match normalize_options_quota (root.findtextOpt ["optionsQuota"]) with
  | .error e => .error e
  | .ok options_quota =>
    match root.findElem ["Configuration", "Parameters", "Parameter"] with
    | none => .error missingCredentialsMsg
    | some p =>
      if ¬ (["password", "username", "CompanyID"].all (fun k => p.hasAttr k)) then
        .error missingCredentialsMsg
      else
        let search_type := root.findtextD ["SearchType"] "Single"
        let start_date := root.findtextOpt ["StartDate"]
        let end_date := root.findtextOpt ["EndDate"]
        let currency := normalize_currency (root.findtextOpt ["Currency"])
        let nationality := normalize_nationality (root.findtextOpt ["Nationality"])
        .ok { language := language
              options_quota := options_quota
              search_type := search_type
              start_date := start_date
              end_date := end_date
              currency := currency
              nationality := nationality }

/-! ### Response generation (`generate_json_response`) -/

/-- Python `round(q, 2)` on exact rational values: scale by 100, round
half to even, and scale back. -/
def pyRound2 (q : ℚ) : ℚ :=
  ((if q * 100 - ⌊q * 100⌋ < 1 / 2 then ⌊q * 100⌋
    else if 1 / 2 < q * 100 - ⌊q * 100⌋ then ⌊q * 100⌋ + 1
    else if ⌊q * 100⌋ % 2 = 0 then ⌊q * 100⌋
    else ⌊q * 100⌋ + 1 : ℤ) : ℚ) / 100

/-- The `price` object of the response. -/
structure PriceBlock where
  minimumSellingPrice : Option ℚ
  currency : String
  net : ℚ
  selling_price : ℚ
  selling_currency : String
  markup : ℚ
  exchange_rate : ℚ
deriving DecidableEq

/-- The single offer object of the response array. -/
structure Response where
  id : String
  hotelCodeSupplier : String
  market : String
  price : PriceBlock
deriving DecidableEq

/-- The fixed net price used by `generate_json_response`. -/
def net_price : ℚ := 13242 / 100

/-- The function `generate_json_response`.  The wall-clock timestamp string and the
random 8-digit supplier code are passed in as parameters
(`current_time`, `hotel_code_supplier`). -/
def generate_json_response (parsed_data : ParsedData)
    (current_time hotel_code_supplier : String) : Response :=
  let markup := MARKUP_PERCENTAGE / 100
  let selling_price := pyRound2 (net_price * (1 + markup))
  let exchange_rate := dictGet EXCHANGE_RATES parsed_data.currency 1
  let selling_currency := parsed_data.currency
  { id := "A#" ++ current_time
    hotelCodeSupplier := hotel_code_supplier
    market := parsed_data.nationality
    price :=
      { minimumSellingPrice := none
        currency := parsed_data.currency
        net := net_price
        selling_price := selling_price
        selling_currency := selling_currency
        markup := MARKUP_PERCENTAGE
        exchange_rate := exchange_rate } }

/-! ### The whole script run (`try/except ValueError` at module level) -/

/-- The input string, as seen by `ET.fromstring`: either not well-formed
XML, or well-formed with the given element tree. -/
inductive PyInput where
  | malformed
  | wellFormed (root : Xml)

/-- What the script run produces: a printed pricing document, a printed
JSON error document carrying a message, or an exception escaping uncaught. -/
inductive Outcome where
  | printedJson (r : Response)
  | printedError (msg : String)
  | uncaught (exn : String)
deriving DecidableEq

/-- The module-level `try`/`except ValueError` block.  `ET.fromstring`
raises `xml.etree.ElementTree.ParseError` — a subclass of `SyntaxError`,
not of `ValueError` — on malformed input, so that exception is not
caught.  The `ValueError` raised by `parse_xml_request` is caught and
printed as a JSON error document. -/
def mainProgram (inp : PyInput) (current_time hotel_code_supplier : String) :
    Outcome :=
  match inp with
  | .malformed => .uncaught "xml.etree.ElementTree.ParseError"
  | .wellFormed root =>
      match parse_xml_request root with
      | .error msg => .printedError msg
      | .ok parsed_data =>
          .printedJson (generate_json_response parsed_data
            current_time hotel_code_supplier)

/-! ### Helper lemmas -/

/-- The credential check of `parse_xml_request`: the first
`Configuration/Parameters/Parameter` element exists and carries all of
`password`, `username`, `CompanyID`. -/
def credentialsPresent (root : Xml) : Bool :=
  match root.findElem ["Configuration", "Parameters", "Parameter"] with
  | none => false
  | some p => ["password", "username", "CompanyID"].all (fun k => p.hasAttr k)

theorem parse_xml_request_eq (root : Xml) :
    parse_xml_request root =
      match normalize_options_quota (root.findtextOpt ["optionsQuota"]) with
      | .error e => .error e
      | .ok n =>
        if credentialsPresent root then
          .ok { language := normalize_language (root.findtextOpt ["source", "languageCode"])
                options_quota := n
                search_type := root.findtextD ["SearchType"] "Single"
                start_date := root.findtextOpt ["StartDate"]
                end_date := root.findtextOpt ["EndDate"]
                currency := normalize_currency (root.findtextOpt ["Currency"])
                nationality := normalize_nationality (root.findtextOpt ["Nationality"]) }
        else .error missingCredentialsMsg := by
  unfold parse_xml_request credentialsPresent
  cases hq : normalize_options_quota (root.findtextOpt ["optionsQuota"]) with
  | error e => rfl
  | ok n =>
      cases h : root.findElem ["Configuration", "Parameters", "Parameter"] with
      | none => simp
      | some p =>
          by_cases hall : ["password", "username", "CompanyID"].all (fun k => p.hasAttr k)
          · simp [hall]
          · simp [hall]

theorem normalize_language_mem (o : Option String) :
    normalize_language o ∈ VALID_LANGUAGES := by
  unfold normalize_language
  dsimp only
  split
  · assumption
  · simp [VALID_LANGUAGES, DEFAULT_LANGUAGE]

theorem normalize_currency_mem (o : Option String) :
    normalize_currency o ∈ VALID_CURRENCIES := by
  unfold normalize_currency
  dsimp only
  split
  · assumption
  · simp [VALID_CURRENCIES, DEFAULT_CURRENCY]

theorem normalize_nationality_mem (o : Option String) :
    normalize_nationality o ∈ VALID_NATIONALITIES := by
  unfold normalize_nationality
  dsimp only
  split
  · assumption
  · simp [VALID_NATIONALITIES, DEFAULT_NATIONALITY]

theorem normalize_language_of_mem {s : String} (h : s ∈ VALID_LANGUAGES) :
    normalize_language (some s) = s := by
  unfold normalize_language
  simp [h]

theorem normalize_currency_of_mem {s : String} (h : s ∈ VALID_CURRENCIES) :
    normalize_currency (some s) = s := by
  unfold normalize_currency
  simp [h]

theorem normalize_nationality_of_mem {s : String} (h : s ∈ VALID_NATIONALITIES) :
    normalize_nationality (some s) = s := by
  unfold normalize_nationality
  simp [h]

theorem normalize_options_quota_le (o : Option String) (n : Nat)
    (h : normalize_options_quota o = Except.ok n) : n ≤ MAX_OPTIONS_QUOTA := by
  rcases o with _ | s
  · unfold normalize_options_quota at h
    simp only [Except.map] at h
    injection h with h2
    rw [← h2]
    exact Nat.min_le_right _ _
  · unfold normalize_options_quota at h
    dsimp only at h
    cases hd : pyIsDigitStr s with
    | false =>
        rw [hd] at h
        simp only [Bool.false_eq_true, if_false, Except.map] at h
        injection h with h2
        rw [← h2]
        exact Nat.min_le_right _ _
    | true =>
        rw [hd] at h
        simp only [if_true] at h
        cases hp : pyInt? s with
        | some m =>
            rw [hp] at h
            simp only [Except.map] at h
            injection h with h2
            rw [← h2]
            exact Nat.min_le_right _ _
        | none =>
            rw [hp] at h
            simp only [Except.map] at h
            exact Except.noConfusion h

theorem normalize_options_quota_toString (n : Nat) (h : n < 51) :
    normalize_options_quota (some (toString n)) = Except.ok n := by
  revert n h
  decide

theorem selling_price_value :
    pyRound2 (net_price * (1 + MARKUP_PERCENTAGE / 100)) = 13666 / 100 := by
  have h : net_price * (1 + MARKUP_PERCENTAGE / 100) * 100 = 1708218 / 125 := by
    norm_num [net_price, MARKUP_PERCENTAGE]
  have hf : ⌊(1708218 / 125 : ℚ)⌋ = 13665 := by
    rw [Int.floor_eq_iff]
    norm_num
  simp only [pyRound2, h, hf]
  norm_num

/-! ### Sample documents (used as concrete inputs in witnesses) -/

/-- The credential element of the script's example input. -/
def credParam : Xml :=
  .elem "Parameter"
    [("password", "XXXXXXXXXX"), ("username", "YYYYYYYYY"), ("CompanyID", "123456")]
    none []

/-- The script's example input `xml_input`, as an element tree. -/
def sampleXml : Xml :=
  .elem "AvailRQ" [] none
    [ .elem "timeoutMilliseconds" [] (some "25000") [],
      .elem "source" [] none [.elem "languageCode" [] (some "en") []],
      .elem "optionsQuota" [] (some "20") [],
      .elem "Configuration" [] none
        [.elem "Parameters" [] none [credParam]],
      .elem "SearchType" [] (some "Multiple") [],
      .elem "StartDate" [] (some "14/10/2024") [],
      .elem "EndDate" [] (some "16/10/2024") [],
      .elem "Currency" [] (some "USD") [],
      .elem "Nationality" [] (some "US") [] ]

/-- The normalized record extracted from `sampleXml`. -/
def sampleParsed : ParsedData :=
  { language := "en"
    options_quota := 20
    search_type := "Multiple"
    start_date := some "14/10/2024"
    end_date := some "16/10/2024"
    currency := "USD"
    nationality := "US" }

theorem parse_sampleXml : parse_xml_request sampleXml = Except.ok sampleParsed := by
  rfl

/-- A well-formed document whose credential element lacks `CompanyID`. -/
def noCredXml : Xml :=
  .elem "AvailRQ" [] none
    [ .elem "Configuration" [] none
        [.elem "Parameters" [] none
          [.elem "Parameter" [("password", "p"), ("username", "u")] none []]] ]

/-- A credentials-missing document whose `optionsQuota` text is the
superscript two, on which `isdigit()` is true but `int()` raises. -/
def noCredBadQuotaXml : Xml :=
  .elem "AvailRQ" [] none
    [ .elem "optionsQuota" [] (some "²") [] ]

/-- A document with credentials present whose `optionsQuota` text is the
superscript two, on which `isdigit()` is true but `int()` raises. -/
def badQuotaXml : Xml :=
  .elem "AvailRQ" [] none
    [ .elem "optionsQuota" [] (some "²") [],
      .elem "Configuration" [] none
        [.elem "Parameters" [] none [credParam]] ]

/-- A well-formed document with credentials but invalid enum values, a
non-numeric quota, and no `SearchType`. -/
def weirdXml : Xml :=
  .elem "AvailRQ" [] none
    [ .elem "source" [] none [.elem "languageCode" [] (some "zz") []],
      .elem "optionsQuota" [] (some "abc") [],
      .elem "Configuration" [] none
        [.elem "Parameters" [] none [credParam]],
      .elem "Currency" [] (some "XYZ") [],
      .elem "Nationality" [] (some "FR") [] ]

/-- A well-formed document with credentials and an empty `SearchType`
element (present, but with no text content). -/
def emptySearchXml : Xml :=
  .elem "AvailRQ" [] none
    [ .elem "Configuration" [] none
        [.elem "Parameters" [] none [credParam]],
      .elem "SearchType" [] none [] ]

/-- The normalized record extracted from `emptySearchXml`. -/
def emptySearchParsed : ParsedData :=
  { language := "en"
    options_quota := 20
    search_type := ""
    start_date := none
    end_date := none
    currency := "EUR"
    nationality := "US" }

theorem parse_emptySearchXml :
    parse_xml_request emptySearchXml = Except.ok emptySearchParsed := by
  rfl

theorem parse_ok_fields {root : Xml} {d : ParsedData}
    (h : parse_xml_request root = Except.ok d) :
    d.language = normalize_language (root.findtextOpt ["source", "languageCode"]) ∧
    normalize_options_quota (root.findtextOpt ["optionsQuota"]) =
      Except.ok d.options_quota ∧
    d.search_type = root.findtextD ["SearchType"] "Single" ∧
    d.currency = normalize_currency (root.findtextOpt ["Currency"]) ∧
    d.nationality = normalize_nationality (root.findtextOpt ["Nationality"]) := by
  rw [parse_xml_request_eq] at h
  cases hq : normalize_options_quota (root.findtextOpt ["optionsQuota"]) with
  | error e =>
      rw [hq] at h
      simp at h
  | ok n =>
      rw [hq] at h
      by_cases hc : credentialsPresent root = true
      · rw [hc] at h
        simp at h
        rw [← h]
        exact ⟨rfl, rfl, rfl, rfl, rfl⟩
      · rw [Bool.not_eq_true] at hc
        rw [hc] at h
        simp at h

theorem parse_ok_credentials {root : Xml} {d : ParsedData}
    (h : parse_xml_request root = Except.ok d) :
    credentialsPresent root = true := by
  rw [parse_xml_request_eq] at h
  cases hq : normalize_options_quota (root.findtextOpt ["optionsQuota"]) with
  | error e =>
      rw [hq] at h
      simp at h
  | ok n =>
      rw [hq] at h
      by_cases hc : credentialsPresent root = true
      · exact hc
      · rw [Bool.not_eq_true] at hc
        rw [hc] at h
        simp at h

theorem mainProgram_printedJson_inv {inp : PyInput} {ts code : String} {r : Response}
    (h : mainProgram inp ts code = Outcome.printedJson r) :
    ∃ root d, inp = PyInput.wellFormed root ∧
      parse_xml_request root = Except.ok d ∧
      r = generate_json_response d ts code := by
  cases inp with
  | malformed => simp [mainProgram] at h
  | wellFormed root =>
      cases hp : parse_xml_request root with
      | error m => simp [mainProgram, hp] at h
      | ok d =>
          simp only [mainProgram, hp] at h
          refine ⟨root, d, rfl, hp, ?_⟩
          injection h with h2
          exact h2.symm

/-! ### Claims -/

/-- C1: the claim says a string that is not well-formed XML always yields a
well-formed JSON error document and never an uncaught exception.  The code
disagrees: `ET.fromstring` raises `xml.etree.ElementTree.ParseError`, which
is not a subclass of `ValueError`, so the module-level `except ValueError`
does not catch it and the run terminates with an uncaught exception,
producing neither an error document nor a pricing document. -/
theorem spec_c1_malformed_input_uncaught (current_time hotel_code_supplier : String) :
    mainProgram PyInput.malformed current_time hotel_code_supplier =
      Outcome.uncaught "xml.etree.ElementTree.ParseError" ∧
    (∀ msg, mainProgram PyInput.malformed current_time hotel_code_supplier ≠
      Outcome.printedError msg) ∧
    (∀ r, mainProgram PyInput.malformed current_time hotel_code_supplier ≠
      Outcome.printedJson r) := by
  refine ⟨rfl, ?_, ?_⟩
  · intro msg h
    simp [mainProgram] at h
  · intro r h
    simp [mainProgram] at h

/-- C1 witness: the uncaught-exception outcome at a concrete run. -/
theorem spec_c1_witness :
    mainProgram PyInput.malformed "20250219120000" "12345678" =
      Outcome.uncaught "xml.etree.ElementTree.ParseError" :=
  (spec_c1_malformed_input_uncaught "20250219120000" "12345678").1

/-- C2 counterexample: at the script's own example input the emitted selling
price is `round(132.42 * 1.032, 2) = 136.66`, not `136.58` as the claim
states. -/
theorem spec_c2_counterexample :
    parse_xml_request sampleXml = Except.ok sampleParsed ∧
    (generate_json_response sampleParsed "20250219120000" "12345678").price.selling_price ≠
      13658 / 100 := by
  refine ⟨parse_sampleXml, ?_⟩
  have h : (generate_json_response sampleParsed "20250219120000" "12345678").price.selling_price
      = pyRound2 (net_price * (1 + MARKUP_PERCENTAGE / 100)) := rfl
  rw [h, selling_price_value]
  norm_num

/-- C2 (amended): for every successful run the selling price in the output
equals `round(net_price * (1 + MARKUP_PERCENTAGE / 100), 2)` with
`net_price = 132.42` and `MARKUP_PERCENTAGE = 3.2`; with these constants
the emitted selling price equals 136.66. -/
theorem spec_c2_selling_price (inp : PyInput) (ts code : String) (r : Response)
    (h : mainProgram inp ts code = Outcome.printedJson r) :
    r.price.selling_price = pyRound2 (net_price * (1 + MARKUP_PERCENTAGE / 100)) ∧
    r.price.selling_price = 13666 / 100 := by
  obtain ⟨root, d, _, hp, hr⟩ := mainProgram_printedJson_inv h
  subst hr
  have hs : (generate_json_response d ts code).price.selling_price
      = pyRound2 (net_price * (1 + MARKUP_PERCENTAGE / 100)) := rfl
  exact ⟨hs, hs.trans selling_price_value⟩

/-- C2 witness: a concrete successful run with selling price 136.66. -/
theorem spec_c2_witness :
    (generate_json_response sampleParsed "t" "c").price.selling_price = 13666 / 100 :=
  (spec_c2_selling_price (PyInput.wellFormed sampleXml) "t" "c"
    (generate_json_response sampleParsed "t" "c") rfl).2

/-- C3 counterexample: a credentials-missing document whose `optionsQuota`
text is the superscript two makes line 48's `int()` raise `ValueError`
before the credential check on lines 52-54 runs, so the program prints the
int-error document, not the MissingCredentials one. -/
theorem spec_c3_counterexample :
    credentialsPresent noCredBadQuotaXml = false ∧
    mainProgram (PyInput.wellFormed noCredBadQuotaXml) "t" "c" =
      Outcome.printedError (intValueErrorMsg "²") ∧
    mainProgram (PyInput.wellFormed noCredBadQuotaXml) "t" "c" ≠
      Outcome.printedError missingCredentialsMsg := by
  refine ⟨rfl, rfl, ?_⟩
  intro h
  have h2 : Outcome.printedError (intValueErrorMsg "²") =
      Outcome.printedError missingCredentialsMsg :=
    (show mainProgram (PyInput.wellFormed noCredBadQuotaXml) "t" "c" =
        Outcome.printedError (intValueErrorMsg "²") from rfl) ▸ h
  injection h2 with h3
  exact absurd h3 (by decide)

/-- C3 (amended): for every well-formed input whose credential `Parameter`
element is absent or lacks one of `password`, `username`, `CompanyID`, and
whose `optionsQuota` conversion does not itself raise, the run prints the
error document with the message naming the three required fields; with
credentials missing the run never prints a pricing document. -/
theorem spec_c3_missing_credentials (root : Xml) (ts code : String)
    (h : credentialsPresent root = false) :
    ((∃ n, normalize_options_quota (root.findtextOpt ["optionsQuota"]) =
        Except.ok n) →
      mainProgram (PyInput.wellFormed root) ts code =
        Outcome.printedError missingCredentialsMsg) ∧
    ∀ r, mainProgram (PyInput.wellFormed root) ts code ≠ Outcome.printedJson r := by
  constructor
  · rintro ⟨n, hq⟩
    have hp := parse_xml_request_eq root
    rw [hq, h] at hp
    simp at hp
    simp [mainProgram, hp]
  · intro r hr
    obtain ⟨root2, d, he, hpd, _⟩ := mainProgram_printedJson_inv hr
    injection he with he2
    subst he2
    rw [parse_ok_credentials hpd] at h
    exact Bool.noConfusion h

/-- C3 witness: a document whose credential element lacks `CompanyID` (and
whose quota is absent, so conversion succeeds) yields the
missing-credentials error document. -/
theorem spec_c3_witness :
    credentialsPresent noCredXml = false ∧
    mainProgram (PyInput.wellFormed noCredXml) "t" "c" =
      Outcome.printedError missingCredentialsMsg :=
  ⟨rfl, (spec_c3_missing_credentials noCredXml "t" "c" rfl).1
    ⟨DEFAULT_OPTIONS_QUOTA, rfl⟩⟩

/-- C4 counterexample: the superscript two is an `optionsQuota` text that
is neither absent nor an integer literal, yet the program does not
substitute the default 20: `isdigit()` accepts it, `int()` raises
`ValueError`, and no normalized value exists at all. -/
theorem spec_c4_counterexample :
    pyIsDigitStr "²" = true ∧
    normalize_options_quota (some "²") = Except.error (intValueErrorMsg "²") ∧
    normalize_options_quota (some "²") ≠ Except.ok DEFAULT_OPTIONS_QUOTA := by
  refine ⟨rfl, rfl, ?_⟩
  intro h
  have h2 : (Except.error (intValueErrorMsg "²") : Except String Nat) =
      Except.ok DEFAULT_OPTIONS_QUOTA :=
    (show normalize_options_quota (some "²") =
        Except.error (intValueErrorMsg "²") from rfl) ▸ h
  exact Except.noConfusion h2

/-- C4 (amended): an `optionsQuota` text whose characters are decimal
digits with value above the maximum (50) normalizes to the maximum; an
absent text, or one failing `isdigit()`, normalizes to the default (20); a
text passing `isdigit()` with a non-decimal digit character instead raises
the `int()` `ValueError` and yields no normalized value; and in every
normalized record the quota never exceeds the maximum. -/
theorem spec_c4_options_quota :
    (∀ s n, pyIsDigitStr s = true → pyInt? s = some n → MAX_OPTIONS_QUOTA < n →
        normalize_options_quota (some s) = Except.ok MAX_OPTIONS_QUOTA) ∧
    normalize_options_quota none = Except.ok DEFAULT_OPTIONS_QUOTA ∧
    (∀ s, pyIsDigitStr s = false →
        normalize_options_quota (some s) = Except.ok DEFAULT_OPTIONS_QUOTA) ∧
    (∀ s, pyIsDigitStr s = true → pyInt? s = none →
        normalize_options_quota (some s) = Except.error (intValueErrorMsg s)) ∧
    (∀ o n, normalize_options_quota o = Except.ok n → n ≤ MAX_OPTIONS_QUOTA) ∧
    (∀ root d, parse_xml_request root = Except.ok d →
        d.options_quota ≤ MAX_OPTIONS_QUOTA) := by
  refine ⟨?_, rfl, ?_, ?_, normalize_options_quota_le, ?_⟩
  · intro s n hs hp hlt
    unfold normalize_options_quota
    dsimp only
    rw [hs, hp]
    simp only [if_true, Except.map]
    rw [Nat.min_eq_right (Nat.le_of_lt hlt)]
  · intro s hs
    unfold normalize_options_quota
    dsimp only
    rw [hs]
    simp only [Bool.false_eq_true, if_false, Except.map]
    decide
  · intro s hs hp
    unfold normalize_options_quota
    dsimp only
    rw [hs, hp]
    simp only [if_true, Except.map]
  · intro root d h
    exact normalize_options_quota_le _ _ (parse_ok_fields h).2.1

/-- C4 witness: the Arabic-Indic numeral for 51 clamps to 50, quota "abc"
and absent quota default to 20, and the superscript two raises. -/
theorem spec_c4_witness :
    normalize_options_quota (some "٥١") = Except.ok MAX_OPTIONS_QUOTA ∧
    normalize_options_quota (some "abc") = Except.ok DEFAULT_OPTIONS_QUOTA ∧
    normalize_options_quota (some "²") = Except.error (intValueErrorMsg "²") ∧
    normalize_options_quota none = Except.ok DEFAULT_OPTIONS_QUOTA :=
  ⟨spec_c4_options_quota.1 "٥١" 51 (by decide) (by decide) (by decide),
   spec_c4_options_quota.2.2.1 "abc" (by decide),
   spec_c4_options_quota.2.2.2.1 "²" (by decide) (by decide),
   spec_c4_options_quota.2.1⟩

/-- C5 counterexample: a document with the credential element and its
three attributes present, whose `optionsQuota` text is the superscript
two, still fails extraction: `int()` raises and the caught error document
is the int one, not the missing-credentials one — contradicting the claim
that extraction succeeds whenever credentials are present. -/
theorem spec_c5_counterexample :
    credentialsPresent badQuotaXml = true ∧
    parse_xml_request badQuotaXml = Except.error (intValueErrorMsg "²") ∧
    intValueErrorMsg "²" ≠ missingCredentialsMsg :=
  ⟨rfl, rfl, by decide⟩

/-- C5 (amended): with the credential element and its three attributes
present and an `optionsQuota` conversion that does not raise, extraction
succeeds with a complete normalized record; extraction fails only with the
`int()` error of a digit-classified non-decimal quota text or, when the
quota conversion succeeds, with the missing-credentials error (invalid
enum values, quota text failing `isdigit()`, and missing optional fields
never cause an error). -/
theorem spec_c5_extraction_total (root : Xml) :
    (credentialsPresent root = true →
      (∀ n, normalize_options_quota (root.findtextOpt ["optionsQuota"]) =
          Except.ok n →
        ∃ d, parse_xml_request root = Except.ok d)) ∧
    (∀ msg, parse_xml_request root = Except.error msg →
      normalize_options_quota (root.findtextOpt ["optionsQuota"]) =
        Except.error msg ∨
      (credentialsPresent root = false ∧ msg = missingCredentialsMsg)) := by
  constructor
  · intro h n hq
    refine ⟨{ language := normalize_language (root.findtextOpt ["source", "languageCode"])
              options_quota := n
              search_type := root.findtextD ["SearchType"] "Single"
              start_date := root.findtextOpt ["StartDate"]
              end_date := root.findtextOpt ["EndDate"]
              currency := normalize_currency (root.findtextOpt ["Currency"])
              nationality := normalize_nationality (root.findtextOpt ["Nationality"]) }, ?_⟩
    rw [parse_xml_request_eq, hq, h]
    simp
  · intro msg h
    rw [parse_xml_request_eq] at h
    cases hq : normalize_options_quota (root.findtextOpt ["optionsQuota"]) with
    | error e =>
        rw [hq] at h
        simp at h
        left
        simp only [hq, h]
    | ok n =>
        rw [hq] at h
        by_cases hc : credentialsPresent root = true
        · rw [hc] at h
          simp at h
        · rw [Bool.not_eq_true] at hc
          rw [hc] at h
          simp at h
          exact Or.inr ⟨hc, h.symm⟩

/-- C5 witness: a document with credentials but invalid enum values, a
quota text failing `isdigit()` and no `SearchType` still extracts
successfully. -/
theorem spec_c5_witness :
    credentialsPresent weirdXml = true ∧
    ∃ d, parse_xml_request weirdXml = Except.ok d :=
  ⟨rfl, (spec_c5_extraction_total weirdXml).1 rfl DEFAULT_OPTIONS_QUOTA rfl⟩

/-- C6: an absent or out-of-set language, currency or nationality value
normalizes to its configured default (`en`, `EUR`, `US`); every normalized
value lies in its allowed set; and every enumerated field in a printed
pricing document lies in its allowed set. -/
theorem spec_c6_enum_defaulting :
    (∀ o, (o = none ∨ ∃ s, o = some s ∧ s ∉ VALID_LANGUAGES) →
        normalize_language o = DEFAULT_LANGUAGE) ∧
    (∀ o, normalize_language o ∈ VALID_LANGUAGES) ∧
    (∀ o, (o = none ∨ ∃ s, o = some s ∧ s ∉ VALID_CURRENCIES) →
        normalize_currency o = DEFAULT_CURRENCY) ∧
    (∀ o, normalize_currency o ∈ VALID_CURRENCIES) ∧
    (∀ o, (o = none ∨ ∃ s, o = some s ∧ s ∉ VALID_NATIONALITIES) →
        normalize_nationality o = DEFAULT_NATIONALITY) ∧
    (∀ o, normalize_nationality o ∈ VALID_NATIONALITIES) ∧
    (∀ inp ts code r, mainProgram inp ts code = Outcome.printedJson r →
        r.price.currency ∈ VALID_CURRENCIES ∧
        r.price.selling_currency ∈ VALID_CURRENCIES ∧
        r.market ∈ VALID_NATIONALITIES) := by
  refine ⟨?_, normalize_language_mem, ?_, normalize_currency_mem,
          ?_, normalize_nationality_mem, ?_⟩
  · rintro o (rfl | ⟨s, rfl, hs⟩)
    · rfl
    · unfold normalize_language
      dsimp only
      rw [Option.getD_some, if_neg hs]
  · rintro o (rfl | ⟨s, rfl, hs⟩)
    · rfl
    · unfold normalize_currency
      dsimp only
      rw [Option.getD_some, if_neg hs]
  · rintro o (rfl | ⟨s, rfl, hs⟩)
    · rfl
    · unfold normalize_nationality
      dsimp only
      rw [Option.getD_some, if_neg hs]
  · intro inp ts code r h
    obtain ⟨root, d, _, hp, hr⟩ := mainProgram_printedJson_inv h
    subst hr
    have hf := parse_ok_fields hp
    refine ⟨?_, ?_, ?_⟩
    · show d.currency ∈ VALID_CURRENCIES
      rw [hf.2.2.2.1]
      exact normalize_currency_mem _
    · show d.currency ∈ VALID_CURRENCIES
      rw [hf.2.2.2.1]
      exact normalize_currency_mem _
    · show d.nationality ∈ VALID_NATIONALITIES
      rw [hf.2.2.2.2]
      exact normalize_nationality_mem _

/-- C6 witness: concrete defaulting of each enumerated field, plus the
output membership on a concrete run. -/
theorem spec_c6_witness :
    normalize_language (some "zz") = DEFAULT_LANGUAGE ∧
    normalize_currency none = DEFAULT_CURRENCY ∧
    normalize_nationality (some "FR") = DEFAULT_NATIONALITY ∧
    (generate_json_response sampleParsed "t" "c").price.currency ∈ VALID_CURRENCIES :=
  ⟨spec_c6_enum_defaulting.1 (some "zz") (Or.inr ⟨"zz", rfl, by decide⟩),
   spec_c6_enum_defaulting.2.2.1 none (Or.inl rfl),
   spec_c6_enum_defaulting.2.2.2.2.1 (some "FR") (Or.inr ⟨"FR", rfl, by decide⟩),
   (spec_c6_enum_defaulting.2.2.2.2.2.2 (PyInput.wellFormed sampleXml) "t" "c"
     (generate_json_response sampleParsed "t" "c") rfl).1⟩

/-- C7: for every successful run, the output market equals the normalized
nationality, hence lies in the allowed nationality set, and never equals the
dead default-market literal `ES`. -/
theorem spec_c7_market (root : Xml) (d : ParsedData) (ts code : String)
    (h : parse_xml_request root = Except.ok d) :
    (generate_json_response d ts code).market = d.nationality ∧
    (generate_json_response d ts code).market ∈ VALID_NATIONALITIES ∧
    (generate_json_response d ts code).market ≠ DEFAULT_MARKET := by
  have hn : d.nationality = normalize_nationality (root.findtextOpt ["Nationality"]) :=
    (parse_ok_fields h).2.2.2.2
  have hmem : d.nationality ∈ VALID_NATIONALITIES := by
    rw [hn]
    exact normalize_nationality_mem _
  refine ⟨rfl, hmem, ?_⟩
  intro he
  have : DEFAULT_MARKET ∈ VALID_NATIONALITIES := by
    rw [← he]
    exact hmem
  exact absurd this (by decide)

/-- C7 witness: the sample run has market `US`. -/
theorem spec_c7_witness :
    (generate_json_response sampleParsed "t" "c").market = "US" :=
  (spec_c7_market sampleXml sampleParsed "t" "c" parse_sampleXml).1

/-- C8: the output exchange rate is the fixed-table lookup of the
normalized currency (GBP yields 0.9); a currency outside the table yields
1.0; and the normalized currency is always in the table. -/
theorem spec_c8_exchange_rate :
    (∀ (d : ParsedData) ts code,
        (generate_json_response d ts code).price.exchange_rate =
          dictGet EXCHANGE_RATES d.currency 1) ∧
    dictGet EXCHANGE_RATES "GBP" 1 = 9 / 10 ∧
    (∀ c, EXCHANGE_RATES.lookup c = none → dictGet EXCHANGE_RATES c 1 = 1) ∧
    (∀ root d, parse_xml_request root = Except.ok d →
        (EXCHANGE_RATES.lookup d.currency).isSome = true) := by
  refine ⟨fun d ts code => rfl, rfl, ?_, ?_⟩
  · intro c h
    unfold dictGet
    rw [h]
    rfl
  · intro root d h
    have hc : d.currency = normalize_currency (root.findtextOpt ["Currency"]) :=
      (parse_ok_fields h).2.2.2.1
    have hmem : d.currency ∈ VALID_CURRENCIES := by
      rw [hc]
      exact normalize_currency_mem _
    simp only [VALID_CURRENCIES, List.mem_cons, List.mem_singleton,
      List.not_mem_nil, or_false] at hmem
    rcases hmem with h1 | h1 | h1 <;> rw [h1] <;> rfl

/-- C8 witness: an out-of-table currency yields rate 1.0, and the sample
run's normalized currency is in the table. -/
theorem spec_c8_witness :
    dictGet EXCHANGE_RATES "XYZ" 1 = 1 ∧
    (EXCHANGE_RATES.lookup sampleParsed.currency).isSome = true :=
  ⟨spec_c8_exchange_rate.2.2.1 "XYZ" rfl,
   spec_c8_exchange_rate.2.2.2 sampleXml sampleParsed parse_sampleXml⟩

/-- C9: each field normalizer is idempotent: re-normalizing an
already-normalized language, options quota (rendered back as text),
currency or nationality yields the same value. -/
theorem spec_c9_idempotent :
    (∀ o, normalize_language (some (normalize_language o)) = normalize_language o) ∧
    (∀ o n, normalize_options_quota o = Except.ok n →
        normalize_options_quota (some (toString n)) = Except.ok n) ∧
    (∀ o, normalize_currency (some (normalize_currency o)) = normalize_currency o) ∧
    (∀ o, normalize_nationality (some (normalize_nationality o)) =
        normalize_nationality o) := by
  refine ⟨fun o => normalize_language_of_mem (normalize_language_mem o),
          fun o n hn => ?_,
          fun o => normalize_currency_of_mem (normalize_currency_mem o),
          fun o => normalize_nationality_of_mem (normalize_nationality_mem o)⟩
  have h : n ≤ 50 := normalize_options_quota_le o n hn
  exact normalize_options_quota_toString _ (by omega)

/-- C9 witness: re-normalizing the normalized quota of the text "20"
yields the same value. -/
theorem spec_c9_witness :
    normalize_options_quota (some (toString 20)) = Except.ok 20 :=
  spec_c9_idempotent.2.1 (some "20") 20 rfl

/-- C10: when the `SearchType` element is present, the normalized search
type is its text content, so an empty element yields the empty string and
not the literal `Single`; the `Single` default applies only when the
element is absent. -/
theorem spec_c10_search_type (root : Xml) (d : ParsedData) (e : Xml)
    (h : parse_xml_request root = Except.ok d) :
    (root.findElem ["SearchType"] = some e →
      d.search_type = e.text.getD "" ∧
      ((e.text = none ∨ e.text = some "") →
        d.search_type = "" ∧ d.search_type ≠ "Single")) ∧
    (root.findElem ["SearchType"] = none → d.search_type = "Single") := by
  have hs : d.search_type = root.findtextD ["SearchType"] "Single" :=
    (parse_ok_fields h).2.2.1
  constructor
  · intro hf
    have h1 : d.search_type = e.text.getD "" := by
      rw [hs]
      unfold Xml.findtextD Xml.findtextOpt
      rw [hf]
      rfl
    refine ⟨h1, ?_⟩
    rintro (ht | ht) <;> rw [h1, ht] <;> exact ⟨rfl, by decide⟩
  · intro hf
    rw [hs]
    unfold Xml.findtextD Xml.findtextOpt
    rw [hf]
    rfl

/-- C10 witness: an empty `SearchType` element yields the empty string. -/
theorem spec_c10_witness : emptySearchParsed.search_type = "" :=
  (((spec_c10_search_type emptySearchXml emptySearchParsed
      (Xml.elem "SearchType" [] none []) parse_emptySearchXml).1 rfl).2
    (Or.inl rfl)).1

end B2B
